import Mathlib

/-!
Verification of the deployment progress tracker of the tekton-frontend
dashboard.  The definitions below are a shallow embedding of the relevant
JavaScript source:

* `src/context/ProjectContext.jsx` (the `ProjectProvider`): `getProjectById`
  in-flight request deduplication, `fetchProjects`, `updateProjectStatus`,
  `deleteProject`;
* `src/components/LogViewer.jsx`: the `fetchLogs` polling loop with the
  `doneDetectedRef` latch and the 5000 ms `setInterval`;
* `src/components/ProjectCard.jsx` (the `DeploymentModal`): the
  `fetchDeploymentStatus` tick with its `pollingInterval.current` guard, the
  `projectRefreshed` latch, and the adaptive-polling `useEffect`.

JavaScript runs on a single-threaded event loop, so interleaved asynchronous
executions are modelled as sequences of atomic steps: the synchronous
prefix of a call up to its first `await` is one step, the settlement of a
pending fetch is another.  Machine-level concerns (React re-render
batching, the DOM) do not affect the properties treated here and are not
modelled.
-/

namespace Tekton

/-! ## String utilities (JavaScript `toLowerCase` / `includes`) -/

/-- ASCII lowering, the behaviour of JavaScript `toLowerCase` on the ASCII
log text handled by the app. -/
def lowerStr (s : String) : String := ⟨s.data.map Char.toLower⟩

/-- Character-list version of "needle starts the haystack". -/
def startsWithL : List Char → List Char → Bool
  | [], _ => true
  | _ :: _, [] => false
  | a :: as, b :: bs => a == b && startsWithL as bs

/-- Character-list substring test (JavaScript `String.prototype.includes`):
the needle occurs contiguously somewhere in the haystack. -/
def subListAt : List Char → List Char → Bool
  | needle, [] => startsWithL needle []
  | needle, h :: t => startsWithL needle (h :: t) || subListAt needle t

/-- JavaScript `hay.includes(needle)`. -/
def strIncludes (hay needle : String) : Bool := subListAt needle.data hay.data

/-- JavaScript `a || b` for an optional string `a`: an absent or empty
string is falsy and falls through to `b`. -/
def jsOr (a : Option String) (b : String) : String :=
  match a with
  | some s => if s = "" then b else s
  | none => b

/-! ## Log entries and terminal-state detection -/

/-- A log entry as delivered by `GET /logs/{deploymentId}`: the text may
arrive under the `message` or the `log` key, and either may be absent. -/
structure LogEntry where
  timestamp : Nat
  level : Option String
  message : Option String
  log : Option String
deriving DecidableEq

/-- The text of a log entry as read by `LogViewer.fetchLogs`:
`(log.message || log.log || "")`. -/
def lvEntryText (e : LogEntry) : String := jsOr e.message (jsOr e.log "")

/-- One entry of the LogViewer `isDone` scan: the lowercased text contains
`"done"` or `"completed successfully"`. -/
def lvEntryIsDone (e : LogEntry) : Bool :=
  let message := lowerStr (lvEntryText e)
  strIncludes message "done" || strIncludes message "completed successfully"

/-- `LogViewer.fetchLogs`: `newLogs.some ((log) => ...)`. -/
def lvIsDone (logs : List LogEntry) : Bool := logs.any lvEntryIsDone

/-- `log.message?.toLowerCase().includes("done")` — optional chaining:
an absent field is falsy, a present (possibly empty) string is scanned. -/
def optHasDone (a : Option String) : Bool :=
  match a with
  | some s => strIncludes (lowerStr s) "done"
  | none => false

/-- One entry of the DeploymentModal `hasDoneLog` scan: only the substring
`"done"` is recognised, on either the `message` or the `log` field. -/
def modalEntryDone (e : LogEntry) : Bool :=
  optHasDone e.message || optHasDone e.log

/-- `DeploymentModal.fetchDeploymentStatus`: `newLogs.some ((log) => ...)`. -/
def modalHasDone (logs : List LogEntry) : Bool := logs.any modalEntryDone

/-- Modelled from the spec: the text of a log entry, which the wire format
`{timestamp, message|log, level?}` stores under `message` or `log`. -/
def specMessageText (e : LogEntry) : String := jsOr e.message (jsOr e.log "")

/-- Modelled from the spec: terminal state is detected iff some log
entry's message, lowercased, contains the substring `"done"` or the
substring `"completed successfully"`. -/
def specTerminalDetected (logs : List LogEntry) : Prop :=
  ∃ e ∈ logs, strIncludes (lowerStr (specMessageText e)) "done" = true ∨
    strIncludes (lowerStr (specMessageText e)) "completed successfully" = true

/-- A concrete log entry whose text announces success without the word
`"done"`. -/
def completedEntry : LogEntry :=
  { timestamp := 0, level := none,
    message := some "Build completed successfully", log := none }

/-! ## LogViewer polling session

`LogViewer` mounts with `doneDetectedRef.current = false`, immediately calls
`fetchLogs()` and installs `pollingRef.current = setInterval(fetchLogs, 5000)`.
Each firing of the interval issues one `GET /logs/{deploymentId}`; when the
response settles, a successful body replaces `logs`, runs the `isDone` scan
and, on first detection (with a `projectId` present), latches
`doneDetectedRef`, sets `pollingActive` to false, calls
`updateProjectStatus(projectId, "success")` and clears the interval.  An
error (transport failure or `status !== "success"`, both routed through the
same `catch`) records the error message and leaves the interval untouched.
The unmount cleanup clears the interval. -/

/-- Observable state of one LogViewer polling session. -/
structure LVState where
  intervalActive : Bool
  inFlight : Nat
  doneDetected : Bool
  pollingActive : Bool
  logs : List LogEntry
  errorSet : Bool
  statusUpdates : Nat
  fetchesIssued : Nat
deriving DecidableEq

/-- Session state right after mount: the immediate `fetchLogs()` call and
the interval registration have interchangeable order here, so the model
starts with an armed interval and no fetch yet issued. -/
def lvInit : LVState :=
  { intervalActive := true, inFlight := 0, doneDetected := false,
    pollingActive := true, logs := [], errorSet := false,
    statusUpdates := 0, fetchesIssued := 0 }

/-- An interval firing: `clearInterval` deterministically removes future
firings, so a fire has an effect only while the interval is active; it then
issues one log fetch. -/
def lvFire (s : LVState) : LVState :=
  if s.intervalActive then
    { s with inFlight := s.inFlight + 1, fetchesIssued := s.fetchesIssued + 1 }
  else s

/-- Settlement of one pending `fetchLogs` request.  `none` is a failed
request (transport error or an application-level `status !== "success"`,
which `fetchLogs` turns into a throw caught by the same `catch`); `some
newLogs` is a successful body.  `hasProjectId` records whether the
component received a `projectId` prop. -/
def lvSettle (hasProjectId : Bool) (s : LVState) (r : Option (List LogEntry)) : LVState :=
  if s.inFlight = 0 then s
  else
    let s0 := { s with inFlight := s.inFlight - 1 }
    match r with
    | none => { s0 with errorSet := true }
    | some newLogs =>
      let s1 := { s0 with logs := newLogs }
      if lvIsDone newLogs && !s1.doneDetected && hasProjectId then
        { s1 with doneDetected := true, pollingActive := false,
                  statusUpdates := s1.statusUpdates + 1, intervalActive := false }
      else s1

/-- Events of a LogViewer session timeline. -/
inductive LVEvent where
  | fire
  | settle (r : Option (List LogEntry))
  | unmount
deriving DecidableEq

def lvStep (hasProjectId : Bool) (s : LVState) : LVEvent → LVState
  | LVEvent.fire => lvFire s
  | LVEvent.settle r => lvSettle hasProjectId s r
  | LVEvent.unmount => { s with intervalActive := false }

def lvRun (hasProjectId : Bool) (s : LVState) : List LVEvent → LVState
  | [] => s
  | e :: es => lvRun hasProjectId (lvStep hasProjectId s e) es

/-- One complete tick (firing followed by the settlement of the fetch it
issued); the default timeline when each fetch settles before the next
firing. -/
def lvTick (hasProjectId : Bool) (s : LVState) (r : Option (List LogEntry)) : LVState :=
  if s.intervalActive then lvSettle hasProjectId (lvFire s) r else s

def lvTicks (hasProjectId : Bool) (s : LVState) : List (Option (List LogEntry)) → LVState
  | [] => s
  | r :: rs => lvTicks hasProjectId (lvTick hasProjectId s r) rs

/-- Whether a tick response would trigger the LogViewer done branch. -/
def lvTrig (r : Option (List LogEntry)) : Bool :=
  match r with
  | some logs => lvIsDone logs
  | none => false

/-! ## DeploymentModal polling session

`DeploymentModal` keeps `pollingInterval.current` in a ref, initially
`null`.  `fetchDeploymentStatus` returns immediately when the ref is null
(`if (!pollingInterval.current) return;`); otherwise it fetches the status
and the logs.  On first `hasDoneLog` detection it latches
`projectRefreshed`, sets `deploymentFinished`, clears the interval and calls
`onComplete(newStatus)` once; otherwise it stores the logs.  Any error in
the tick clears the interval.  A separate `useEffect` (the adaptive-polling
effect) runs after `pollCount` or `logs.length` changes: when
`pollCount > 5` and the log count is unchanged it replaces a non-null
interval with `setInterval(fetchDeploymentStatus, 8000)`, and it always
records `logs.length` into `lastLogCount`.  In the source,
`pollingInterval.current` is assigned a timer only inside a branch that
requires it to already be non-null, and `setPollCount` is never called. -/

/-- Observable state of one DeploymentModal session.  `interval` is the
delay of the currently installed timer, `none` when no timer is
installed. -/
structure ModalState where
  interval : Option Nat
  deploymentStatus : String
  projectRefreshed : Bool
  deploymentFinished : Bool
  logs : List LogEntry
  lastLogCount : Nat
  pollCount : Nat
  errorMsg : Option String
  completions : Nat
  fetchesIssued : Nat
deriving DecidableEq

/-- Modal state at mount: `pollingInterval.current` is `null`. -/
def modalInit : ModalState :=
  { interval := none, deploymentStatus := "running", projectRefreshed := false,
    deploymentFinished := false, logs := [], lastLogCount := 0, pollCount := 0,
    errorMsg := none, completions := 0, fetchesIssued := 0 }

/-- One invocation of `fetchDeploymentStatus` with the combined outcome of
its status and log fetches: `Except.error m` when any of them throws,
`Except.ok (newStatus, newLogs)` when both succeed. -/
def modalTick (s : ModalState) (r : Except String (String × List LogEntry)) : ModalState :=
  match s.interval with
  | none => s
  | some _ =>
    let s0 := { s with fetchesIssued := s.fetchesIssued + 1 }
    match r with
    | Except.error m => { s0 with errorMsg := some m, interval := none }
    | Except.ok (newStatus, newLogs) =>
      let s1 := { s0 with deploymentStatus := newStatus }
      if modalHasDone newLogs && !s1.projectRefreshed then
        { s1 with projectRefreshed := true, deploymentFinished := true,
                  interval := none, completions := s1.completions + 1 }
      else
        { s1 with logs := newLogs }

/-- The adaptive-polling `useEffect` body, run after a tick updated
`logs`. -/
def modalAdaptive (s : ModalState) : ModalState :=
  let s1 :=
    if s.pollCount > 5 && s.logs.length == s.lastLogCount then
      match s.interval with
      | some _ => { s with interval := some 8000 }
      | none => s
    else s
  { s1 with lastLogCount := s1.logs.length }

def modalRun (s : ModalState) : List (Except String (String × List LogEntry)) → ModalState
  | [] => s
  | r :: rs => modalRun (modalAdaptive (modalTick s r)) rs

end Tekton

namespace Tekton

/-- Claim C3, counterexample: on the log set `[completedEntry]` the spec predicate
holds (the text contains "completed successfully"), yet the
DeploymentModal's detection — which only looks for "done" — reports
`false`.  The claim's "for every component" iff is therefore false. -/
theorem terminal_detection_mismatch :
    specTerminalDetected [completedEntry] ∧ modalHasDone [completedEntry] = false := by
  constructor
  · exact ⟨completedEntry, by simp, by decide⟩
  · decide

/-- Claim C3, amended: LogViewer detects terminal state exactly per the spec
predicate ("done" or "completed successfully", case-insensitive), while
DeploymentModal detects iff some entry's `message` or `log` field,
lowercased, contains "done" only. -/
theorem terminal_detection_per_component (logs : List LogEntry) :
    (lvIsDone logs = true ↔ specTerminalDetected logs) ∧
    (modalHasDone logs = true ↔
      ∃ e ∈ logs, optHasDone e.message = true ∨ optHasDone e.log = true) := by
  constructor
  · simp only [lvIsDone, List.any_eq_true, specTerminalDetected, lvEntryIsDone,
      specMessageText, lvEntryText, Bool.or_eq_true]
  · simp only [modalHasDone, List.any_eq_true, modalEntryDone, Bool.or_eq_true]

/-! ### Helper lemmas on the LogViewer session -/

theorem lvTick_stopped (hasProjectId : Bool) (s : LVState) (r : Option (List LogEntry))
    (h : s.intervalActive = false) : lvTick hasProjectId s r = s := by
  simp [lvTick, h]

theorem lvTicks_stopped (hasProjectId : Bool) (s : LVState)
    (rs : List (Option (List LogEntry))) (h : s.intervalActive = false) :
    lvTicks hasProjectId s rs = s := by
  induction rs with
  | nil => rfl
  | cons r rs ih =>
    show lvTicks hasProjectId (lvTick hasProjectId s r) rs = s
    rw [lvTick_stopped _ _ _ h]
    exact ih

theorem lvTicks_append (hasProjectId : Bool) (s : LVState)
    (as bs : List (Option (List LogEntry))) :
    lvTicks hasProjectId s (as ++ bs) =
      lvTicks hasProjectId (lvTicks hasProjectId s as) bs := by
  induction as generalizing s with
  | nil => rfl
  | cons a as ih => exact ih (lvTick hasProjectId s a)

/-- The latch invariant of the `doneDetectedRef` flag: before the latch is
set no status update has been sent, and never more than one is sent. -/
def lvLatchInv (s : LVState) : Prop :=
  (s.doneDetected = false → s.statusUpdates = 0) ∧ s.statusUpdates ≤ 1

theorem lvFire_latch (s : LVState) (h : lvLatchInv s) : lvLatchInv (lvFire s) := by
  unfold lvFire
  split <;> exact h

theorem lvSettle_latch (hasProjectId : Bool) (s : LVState) (r : Option (List LogEntry))
    (h : lvLatchInv s) : lvLatchInv (lvSettle hasProjectId s r) := by
  obtain ⟨h1, h2⟩ := h
  unfold lvSettle
  split
  · exact ⟨h1, h2⟩
  · cases r with
    | none => exact ⟨h1, h2⟩
    | some newLogs =>
      dsimp only
      split
      · rename_i hcond
        simp only [Bool.and_eq_true, Bool.not_eq_true'] at hcond
        refine ⟨fun hdd => by simp at hdd, ?_⟩
        have h0 : s.statusUpdates = 0 := h1 hcond.1.2
        simp [h0]
      · exact ⟨h1, h2⟩

theorem lvStep_latch (hasProjectId : Bool) (s : LVState) (e : LVEvent)
    (h : lvLatchInv s) : lvLatchInv (lvStep hasProjectId s e) := by
  cases e with
  | fire => exact lvFire_latch s h
  | settle r => exact lvSettle_latch hasProjectId s r h
  | unmount => exact h

theorem lvTick_latch (hasProjectId : Bool) (s : LVState) (r : Option (List LogEntry))
    (h : lvLatchInv s) : lvLatchInv (lvTick hasProjectId s r) := by
  unfold lvTick
  split
  · exact lvSettle_latch hasProjectId (lvFire s) r (lvFire_latch s h)
  · exact h

theorem lvTicks_latch (hasProjectId : Bool) (s : LVState)
    (rs : List (Option (List LogEntry))) (h : lvLatchInv s) :
    lvLatchInv (lvTicks hasProjectId s rs) := by
  induction rs generalizing s with
  | nil => exact h
  | cons r rs ih => exact ih _ (lvTick_latch hasProjectId s r h)

/-- A session that has not yet detected a terminal state and has no fetch
outstanding. -/
def lvLive (s : LVState) : Prop :=
  s.intervalActive = true ∧ s.doneDetected = false ∧
    s.statusUpdates = 0 ∧ s.inFlight = 0

theorem lvTick_live (hasProjectId : Bool) (s : LVState) (r : Option (List LogEntry))
    (hs : lvLive s) (hr : lvTrig r = false) : lvLive (lvTick hasProjectId s r) := by
  obtain ⟨h1, h2, h3, h4⟩ := hs
  cases r with
  | none => simp [lvTick, lvFire, lvSettle, lvLive, h1, h2, h3, h4]
  | some logs =>
    have hd : lvIsDone logs = false := by simpa [lvTrig] using hr
    simp [lvTick, lvFire, lvSettle, lvLive, h1, h2, h3, h4, hd]

theorem lvTicks_live (hasProjectId : Bool) (s : LVState)
    (rs : List (Option (List LogEntry))) (hs : lvLive s)
    (hrs : ∀ x ∈ rs, lvTrig x = false) : lvLive (lvTicks hasProjectId s rs) := by
  induction rs generalizing s with
  | nil => exact hs
  | cons r rs ih =>
    exact ih _ (lvTick_live hasProjectId s r hs (hrs r (by simp)))
      (fun x hx => hrs x (by simp [hx]))

theorem lvTick_trigger (s : LVState) (logs : List LogEntry)
    (hs : lvLive s) (hd : lvIsDone logs = true) :
    (lvTick true s (some logs)).statusUpdates = 1 ∧
      (lvTick true s (some logs)).intervalActive = false := by
  obtain ⟨h1, h2, h3, h4⟩ := hs
  simp [lvTick, lvFire, lvSettle, h1, h2, h3, h4, hd]

theorem lvSettle_fetches (hasProjectId : Bool) (s : LVState) (r : Option (List LogEntry)) :
    (lvSettle hasProjectId s r).fetchesIssued = s.fetchesIssued := by
  unfold lvSettle
  split
  · rfl
  · cases r with
    | none => rfl
    | some newLogs =>
      dsimp only
      split <;> rfl

theorem lvSettle_stopped (hasProjectId : Bool) (s : LVState) (r : Option (List LogEntry))
    (h : s.intervalActive = false) :
    (lvSettle hasProjectId s r).intervalActive = false := by
  unfold lvSettle
  split
  · exact h
  · cases r with
    | none => exact h
    | some newLogs =>
      dsimp only
      split
      · rfl
      · exact h

theorem lvStep_stopped (hasProjectId : Bool) (s : LVState) (e : LVEvent)
    (h : s.intervalActive = false) :
    (lvStep hasProjectId s e).fetchesIssued = s.fetchesIssued ∧
      (lvStep hasProjectId s e).intervalActive = false := by
  cases e with
  | fire =>
    show (lvFire s).fetchesIssued = s.fetchesIssued ∧ (lvFire s).intervalActive = false
    simp [lvFire, h]
  | settle r =>
    exact ⟨lvSettle_fetches hasProjectId s r, lvSettle_stopped hasProjectId s r h⟩
  | unmount => exact ⟨rfl, rfl⟩

/-- Once the interval is gone, no event of the session can ever issue a
fetch again or re-arm the interval. -/
theorem lv_stopped_run (hasProjectId : Bool) (s : LVState) (evs : List LVEvent)
    (h : s.intervalActive = false) :
    (lvRun hasProjectId s evs).fetchesIssued = s.fetchesIssued ∧
      (lvRun hasProjectId s evs).intervalActive = false := by
  induction evs generalizing s with
  | nil => exact ⟨rfl, h⟩
  | cons e evs ih =>
    have hred : lvRun hasProjectId s (e :: evs) =
        lvRun hasProjectId (lvStep hasProjectId s e) evs := rfl
    rw [hred]
    obtain ⟨hf, hi⟩ := lvStep_stopped hasProjectId s e h
    obtain ⟨ihf, ihi⟩ := ih _ hi
    exact ⟨by rw [ihf, hf], ihi⟩

/-! ### Helper lemmas on the DeploymentModal session -/

theorem modalTick_no_interval (s : ModalState)
    (r : Except String (String × List LogEntry)) (h : s.interval = none) :
    modalTick s r = s := by
  unfold modalTick
  rw [h]

theorem modalAdaptive_fields (s : ModalState) :
    (modalAdaptive s).fetchesIssued = s.fetchesIssued ∧
      (modalAdaptive s).completions = s.completions ∧
      (modalAdaptive s).projectRefreshed = s.projectRefreshed := by
  unfold modalAdaptive
  split
  · cases hI : s.interval <;> simp [hI]
  · simp

theorem modalAdaptive_interval_none (s : ModalState) (h : s.interval = none) :
    (modalAdaptive s).interval = none := by
  simp [modalAdaptive, h]

/-- Once `pollingInterval.current` is null, the guard at the top of
`fetchDeploymentStatus` makes every later tick a no-op: no fetch is ever
issued again and no timer is ever installed. -/
theorem modal_stopped_run (s : ModalState)
    (rs : List (Except String (String × List LogEntry))) (h : s.interval = none) :
    (modalRun s rs).fetchesIssued = s.fetchesIssued ∧ (modalRun s rs).interval = none := by
  induction rs generalizing s with
  | nil => exact ⟨rfl, h⟩
  | cons r rs ih =>
    have hred : modalRun s (r :: rs) = modalRun (modalAdaptive (modalTick s r)) rs := rfl
    rw [hred, modalTick_no_interval s r h]
    obtain ⟨ihf, ihi⟩ := ih (modalAdaptive s) (modalAdaptive_interval_none s h)
    exact ⟨by rw [ihf, (modalAdaptive_fields s).1], ihi⟩

/-- The `projectRefreshed` latch: before it is set no completion callback
has fired, and never more than one fires. -/
def modalLatchInv (s : ModalState) : Prop :=
  (s.projectRefreshed = false → s.completions = 0) ∧ s.completions ≤ 1

theorem modalTick_latch (s : ModalState) (r : Except String (String × List LogEntry))
    (h : modalLatchInv s) : modalLatchInv (modalTick s r) := by
  obtain ⟨h1, h2⟩ := h
  unfold modalTick
  cases hI : s.interval with
  | none => exact ⟨h1, h2⟩
  | some d =>
    cases r with
    | error m => exact ⟨h1, h2⟩
    | ok p =>
      obtain ⟨newStatus, newLogs⟩ := p
      dsimp only
      split
      · rename_i hcond
        simp only [Bool.and_eq_true, Bool.not_eq_true'] at hcond
        refine ⟨fun hpr => by simp at hpr, ?_⟩
        have h0 : s.completions = 0 := h1 hcond.2
        simp [h0]
      · exact ⟨h1, h2⟩

theorem modalAdaptive_latch (s : ModalState) (h : modalLatchInv s) :
    modalLatchInv (modalAdaptive s) := by
  obtain ⟨hf, hc, hp⟩ := modalAdaptive_fields s
  obtain ⟨h1, h2⟩ := h
  constructor
  · rw [hp, hc]; exact h1
  · rw [hc]; exact h2

theorem modalRun_latch (s : ModalState)
    (rs : List (Except String (String × List LogEntry))) (h : modalLatchInv s) :
    modalLatchInv (modalRun s rs) := by
  induction rs generalizing s with
  | nil => exact h
  | cons r rs ih => exact ih _ (modalAdaptive_latch _ (modalTick_latch s r h))

/-! ### Concrete log data used by witnesses and counterexamples -/

def buildingEntry : LogEntry :=
  { timestamp := 1, level := none, message := some "Building...", log := none }

def doneEntry : LogEntry :=
  { timestamp := 2, level := none, message := some "Done", log := none }

/-! ### Claim theorems for the polling sessions -/

/-- Claim C2: the terminal-detection callback of a polling session fires at
most once.  (1) In any LogViewer tick sequence at most one
`updateProjectStatus` call is made; (2) when the ticks before tick N carry
no terminal marker and tick N does, the completion action runs exactly once
— zero times before tick N, once in total however the session continues
(the clear of the interval makes every later tick a no-op); (3) in the
DeploymentModal, even from a hypothetical armed-timer state, the
`projectRefreshed` latch lets `onComplete` fire at most once. -/
theorem latched_completion :
    (∀ hasProjectId rs, (lvTicks hasProjectId lvInit rs).statusUpdates ≤ 1) ∧
    (∀ pre logs post, (∀ x ∈ pre, lvTrig x = false) → lvIsDone logs = true →
      (lvTicks true lvInit pre).statusUpdates = 0 ∧
      (lvTicks true lvInit (pre ++ some logs :: post)).statusUpdates = 1) ∧
    (∀ d rs, (modalRun { modalInit with interval := some d } rs).completions ≤ 1) := by
  refine ⟨?_, ?_, ?_⟩
  · intro hasProjectId rs
    exact (lvTicks_latch hasProjectId lvInit rs ⟨fun _ => rfl, by decide⟩).2
  · intro pre logs post hpre hdone
    have hlive : lvLive (lvTicks true lvInit pre) :=
      lvTicks_live true lvInit pre ⟨rfl, rfl, rfl, rfl⟩ hpre
    refine ⟨hlive.2.2.1, ?_⟩
    rw [lvTicks_append]
    have hred : lvTicks true (lvTicks true lvInit pre) (some logs :: post) =
        lvTicks true (lvTick true (lvTicks true lvInit pre) (some logs)) post := rfl
    rw [hred]
    obtain ⟨hone, hstop⟩ := lvTick_trigger (lvTicks true lvInit pre) logs hlive hdone
    rw [lvTicks_stopped true _ post hstop]
    exact hone
  · intro d rs
    exact (modalRun_latch { modalInit with interval := some d } rs
      ⟨fun _ => rfl, Nat.zero_le 1⟩).2

/-- Claim C2 witness: a session whose first tick returns a building log and
whose second and third ticks both contain "Done" sends exactly one status
update, and none before the detecting tick. -/
theorem latched_completion_witness :
    (lvTicks true lvInit [some [buildingEntry]]).statusUpdates = 0 ∧
    (lvTicks true lvInit ([some [buildingEntry]] ++
      some [buildingEntry, doneEntry] :: [some [buildingEntry, doneEntry]])).statusUpdates = 1 :=
  latched_completion.2.1 [some [buildingEntry]] [buildingEntry, doneEntry]
    [some [buildingEntry, doneEntry]] (by decide) (by decide)

/-- Claim C4: the DeploymentModal's polling never happens at all.
`pollingInterval.current` starts null and the only assignment of a timer to
it is guarded by the ref already being non-null, while `setPollCount` is
never called; so from the real initial state every tick is rejected by the
`fetchDeploymentStatus` guard: no fetch is ever issued and the interval
stays null, hence it never increases and is never reset (first conjunct).
Moreover, even granting an armed timer and an advanced poll count, the
adaptive effect replaces the interval with an 8000 ms one on unchanged log
count (second conjunct), and a run with new log content leaves that 8000 ms
interval in place — there is no reset-to-base branch at all (third
conjunct).  This contradicts the claimed backoff-then-reset behaviour; the
code is a slip against its own comments ("Continue with polling...",
"slow down polling"). -/
theorem modal_polling_never_starts :
    (∀ rs, (modalRun modalInit rs).fetchesIssued = 0 ∧
      (modalRun modalInit rs).interval = none) ∧
    (modalAdaptive { modalInit with interval := some 2000, pollCount := 6 }).interval =
      some 8000 ∧
    (modalAdaptive { modalInit with interval := some 8000, pollCount := 6, logs := [doneEntry] }).interval = some 8000 :=
  ⟨fun rs => modal_stopped_run modalInit rs rfl, rfl, rfl⟩

/-- Claim C5: once a session is stopped — its interval cleared by terminal
detection or unmount (LogViewer), or `pollingInterval.current` nulled
(DeploymentModal) — no later event ever issues a fetch, however many timer
firings or responses follow. -/
theorem no_ticks_after_stop :
    (∀ hasProjectId (s : LVState) evs, s.intervalActive = false →
      (lvRun hasProjectId s evs).fetchesIssued = s.fetchesIssued ∧
        (lvRun hasProjectId s evs).intervalActive = false) ∧
    (∀ (s : ModalState) rs, s.interval = none →
      (modalRun s rs).fetchesIssued = s.fetchesIssued ∧ (modalRun s rs).interval = none) :=
  ⟨lv_stopped_run, modal_stopped_run⟩

/-- Claim C5 witness: a stopped LogViewer session ignores a timer firing,
and a stopped modal session ignores a successful tick outcome. -/
theorem no_ticks_after_stop_witness :
    (lvRun true { lvInit with intervalActive := false } [LVEvent.fire]).fetchesIssued =
      ({ lvInit with intervalActive := false } : LVState).fetchesIssued ∧
    (modalRun modalInit [Except.ok ("running", [])]).fetchesIssued =
      modalInit.fetchesIssued :=
  ⟨(no_ticks_after_stop.1 true { lvInit with intervalActive := false }
      [LVEvent.fire] rfl).1,
   (no_ticks_after_stop.2 modalInit [Except.ok ("running", [])] rfl).1⟩

/-- Claim C6, counterexample: in the DeploymentModal a transport error does
tear the poller down.  From a state with an armed 8000 ms timer, an
erroring tick nulls the interval, and the following tick issues no fetch —
the fetch count stays at 1, there is no implicit retry. -/
theorem modal_error_tears_down_poller :
    (modalTick { modalInit with interval := some 8000 }
      (Except.error "Network Error")).interval = none ∧
    (modalRun { modalInit with interval := some 8000 }
      [Except.error "Network Error", Except.ok ("running", [])]).fetchesIssued = 1 := by
  exact ⟨rfl, rfl⟩

/-- Claim C6, amended: in LogViewer a transport error leaves the interval
active and unchanged, so the next scheduled firing issues a retry fetch; in
the DeploymentModal any tick error clears the polling interval, stopping
the session instead of retrying. -/
theorem transport_error_handling :
    (∀ hasProjectId (s : LVState),
      (lvSettle hasProjectId s none).intervalActive = s.intervalActive) ∧
    (∀ hasProjectId (s : LVState), s.intervalActive = true →
      (lvFire (lvSettle hasProjectId s none)).fetchesIssued = s.fetchesIssued + 1) ∧
    (∀ (s : ModalState) d m, s.interval = some d →
      (modalTick s (Except.error m)).interval = none) := by
  have hset : ∀ hasProjectId (s : LVState),
      (lvSettle hasProjectId s none).intervalActive = s.intervalActive := by
    intro hasProjectId s
    unfold lvSettle
    split <;> rfl
  refine ⟨hset, ?_, ?_⟩
  · intro hasProjectId s h
    have hact : (lvSettle hasProjectId s none).intervalActive = true := by
      rw [hset hasProjectId s]; exact h
    have hfe : (lvSettle hasProjectId s none).fetchesIssued = s.fetchesIssued :=
      lvSettle_fetches hasProjectId s none
    unfold lvFire
    rw [hact]
    simp [hfe]
  · intro s d m h
    unfold modalTick
    rw [h]

/-- Claim C6 witness: concrete instances of the amended behaviour — after
an erroring settle the armed LogViewer session fetches again on the next
firing, and a modal tick error from an armed-timer state nulls the
interval. -/
theorem transport_error_handling_witness :
    (lvFire (lvSettle true lvInit none)).fetchesIssued = lvInit.fetchesIssued + 1 ∧
    (modalTick { modalInit with interval := some 8000 }
      (Except.error "timeout")).interval = none :=
  ⟨transport_error_handling.2.1 true lvInit rfl,
   transport_error_handling.2.2 { modalInit with interval := some 8000 } 8000 "timeout" rfl⟩

/-- Claim C8, counterexample: LogViewer does not skip overlapping ticks.
Two interval firings while the first fetch is still unsettled leave two
fetches outstanding at once — the claimed at-most-one-outstanding
invariant is violated. -/
theorem overlapping_ticks :
    (lvRun true lvInit [LVEvent.fire, LVEvent.fire]).inFlight = 2 ∧
    (lvRun true lvInit [LVEvent.fire, LVEvent.fire]).fetchesIssued = 2 :=
  ⟨rfl, rfl⟩

/-- Claim C8, amended: every interval firing while the interval is active
issues a new fetch regardless of outstanding ones, so tick fetches can
overlap; the modal's guard only makes ticks no-ops once the interval has
been cleared — it is not an overlap guard. -/
theorem ticks_overlap_amended :
    (∀ s : LVState, s.intervalActive = true →
      (lvFire s).inFlight = s.inFlight + 1 ∧
        (lvFire s).fetchesIssued = s.fetchesIssued + 1) ∧
    (∀ (s : ModalState) r, s.interval = none → modalTick s r = s) := by
  constructor
  · intro s h
    unfold lvFire
    rw [h]
    exact ⟨rfl, rfl⟩
  · intro s r h
    exact modalTick_no_interval s r h

/-- Claim C8 witness: the initial armed LogViewer session gains one
in-flight fetch per firing, and a guard-stopped modal tick is an exact
no-op. -/
theorem ticks_overlap_amended_witness :
    ((lvFire lvInit).inFlight = lvInit.inFlight + 1 ∧
      (lvFire lvInit).fetchesIssued = lvInit.fetchesIssued + 1) ∧
    modalTick modalInit (Except.error "x") = modalInit :=
  ⟨ticks_overlap_amended.1 lvInit rfl,
   ticks_overlap_amended.2 modalInit (Except.error "x") rfl⟩

/-! ## ProjectContext: cached projects and provider operations -/

/-- A deployment record as held in the provider's `projects` state; any
field may be absent on a freshly synthesised object. -/
structure Deployment where
  id : Option String
  status : Option String
  createdAt : Option String
  updatedAt : Option String
deriving DecidableEq

/-- A cached project; `deployments` is absent when the server never sent
one. -/
structure Project where
  id : String
  deployments : Option (List Deployment)
deriving DecidableEq

/-- `{ ...project.deployments[0], status }`: object spread of a
possibly-undefined head element with the `status` override. -/
def spreadHeadWithStatus (ds : List Deployment) (st : String) : Deployment :=
  match ds with
  | [] => { id := none, status := some st, createdAt := none, updatedAt := none }
  | d :: _ => { d with status := some st }

/-- `project.deployments ? [{...project.deployments[0], status}, ...project.deployments.slice(1)] : [{status}]`
(an empty `deployments` array is truthy in JavaScript and also takes the
spread branch). -/
def deploymentsWithStatus (dso : Option (List Deployment)) (status : String) :
    List Deployment :=
  match dso with
  | some ds => spreadHeadWithStatus ds status :: ds.drop 1
  | none => [{ id := none, status := some status, createdAt := none, updatedAt := none }]

/-- The `setProjects` mapper of `updateProjectStatus(projectId, status)`:
for the matching project, replace the head deployment with a copy whose
`status` is overridden. -/
def updateProjectStatus (projects : List Project) (projectId status : String) :
    List Project :=
  projects.map fun project =>
    if project.id == projectId then
      { project with deployments := some (deploymentsWithStatus project.deployments status) }
    else project

def runningDeployment : Deployment :=
  { id := some "d1", status := some "running",
    createdAt := some "2026-01-01T00:00:00Z", updatedAt := none }

def sampleProject : Project := { id := "p1", deployments := some [runningDeployment] }

/-- The head deployment after completion: `status` rewritten, everything
else — `updatedAt` included — exactly as before. -/
def successDeployment : Deployment :=
  { id := some "d1", status := some "success",
    createdAt := some "2026-01-01T00:00:00Z", updatedAt := none }

/-- Claim C7, counterexample: completing the deployment of `sampleProject`
rewrites the head deployment's `status` to `"success"` but leaves
`updatedAt` exactly as it was (`none` here) — `updateProjectStatus` never
touches `updatedAt`, contradicting the claimed merge of both fields. -/
theorem updateProjectStatus_updatedAt_not_set :
    updateProjectStatus [sampleProject] "p1" "success" =
      [{ id := "p1", deployments := some [successDeployment] }] ∧
    successDeployment.updatedAt = none := by
  exact ⟨by decide, rfl⟩

/-- Claim C7, amended: on first terminal detection the reconciler stops the
poller and merges the final status into the cached entity's head
deployment, setting its `status` field only; `updatedAt` is left
unchanged. -/
theorem updateProjectStatus_sets_status_only (p : Project) (d : Deployment)
    (ds : List Deployment) (pid st : String)
    (hid : p.id = pid) (hds : p.deployments = some (d :: ds)) :
    updateProjectStatus [p] pid st =
      [{ p with deployments := some ({ d with status := some st } :: ds) }] ∧
    ({ d with status := some st } : Deployment).updatedAt = d.updatedAt := by
  refine ⟨?_, rfl⟩
  unfold updateProjectStatus
  simp [hid, hds, deploymentsWithStatus, spreadHeadWithStatus]

/-- Claim C7 witness: the amended merge at `sampleProject`. -/
theorem updateProjectStatus_sets_status_only_witness :
    updateProjectStatus [sampleProject] "p1" "failure" =
      [{ sampleProject with deployments := some [{ runningDeployment with status := some "failure" }] }] ∧
    ({ runningDeployment with status := some "failure" } : Deployment).updatedAt =
      runningDeployment.updatedAt :=
  updateProjectStatus_sets_status_only sampleProject runningDeployment [] "p1" "failure"
    rfl rfl

/-! ## getProjectById in-flight deduplication

The synchronous prefix of a `getProjectById(projectId)` call — the check of
`loadingRef.current[projectId]` and, when it is absent, the storage of the
new promise, the cache lookup inside it and the dispatch of the network
request — runs atomically on the single-threaded event loop; the first
suspension point is the `await` on the request.  `getProjectByIdCall` is
that atomic prefix for one fixed project id; the returned number
identifies the promise this caller awaits, and every caller awaiting the
same promise receives that promise's settled value. -/

structure DedupState where
  cached : Bool
  ledger : Option Nat
  fetches : Nat
  nextId : Nat
deriving DecidableEq

/-- No cached entry, empty ledger, no fetch issued yet. -/
def dedupInit : DedupState :=
  { cached := false, ledger := none, fetches := 0, nextId := 0 }

def getProjectByIdCall (s : DedupState) : DedupState × Nat :=
  match s.ledger with
  | some p => (s, p)
  | none =>
    ({ s with ledger := some s.nextId,
              fetches := if s.cached then s.fetches else s.fetches + 1,
              nextId := s.nextId + 1 }, s.nextId)

/-- `n` callers entering `getProjectById` for the same id, all interleaved
before the first fetch settles (so no `finally` cleanup runs in
between). -/
def getProjectByIdCalls : Nat → DedupState → DedupState × List Nat
  | 0, s => (s, [])
  | Nat.succ n, s =>
    let first := getProjectByIdCall s
    let rest := getProjectByIdCalls n first.1
    (rest.1, first.2 :: rest.2)

theorem getProjectByIdCalls_joined (n : Nat) (s : DedupState) (p : Nat)
    (h : s.ledger = some p) :
    getProjectByIdCalls n s = (s, List.replicate n p) := by
  induction n with
  | zero => rfl
  | succ n ih =>
    have hc : getProjectByIdCall s = (s, p) := by
      unfold getProjectByIdCall; rw [h]
    have hred : getProjectByIdCalls (n + 1) s =
        ((getProjectByIdCalls n (getProjectByIdCall s).1).1,
          (getProjectByIdCall s).2 ::
            (getProjectByIdCalls n (getProjectByIdCall s).1).2) := rfl
    rw [hred, hc]
    dsimp only
    rw [ih]
    rfl

/-- Claim C1: with no cached entry, `n ≥ 1` concurrent `getProjectById`
calls for the same id issue exactly one outbound fetch, and every caller
joins promise `0` — the single in-flight fetch — so all receive its
settled value. -/
theorem getProjectById_single_fetch (n : Nat) (h : 1 ≤ n) :
    (getProjectByIdCalls n dedupInit).1.fetches = 1 ∧
      (getProjectByIdCalls n dedupInit).2 = List.replicate n 0 := by
  cases n with
  | zero => exact absurd h (by decide)
  | succ m =>
    have hfirst : getProjectByIdCall dedupInit =
        ({ cached := false, ledger := some 0, fetches := 1, nextId := 1 }, 0) := rfl
    have hred : getProjectByIdCalls (m + 1) dedupInit =
        ((getProjectByIdCalls m (getProjectByIdCall dedupInit).1).1,
          (getProjectByIdCall dedupInit).2 ::
            (getProjectByIdCalls m (getProjectByIdCall dedupInit).1).2) := rfl
    rw [hred, hfirst]
    dsimp only
    rw [getProjectByIdCalls_joined m _ 0 rfl]
    exact ⟨rfl, rfl⟩

/-- Claim C1 witness: three interleaved callers — one fetch, all three on
promise `0`. -/
theorem getProjectById_single_fetch_witness :
    (getProjectByIdCalls 3 dedupInit).1.fetches = 1 ∧
      (getProjectByIdCalls 3 dedupInit).2 = List.replicate 3 0 :=
  getProjectById_single_fetch 3 (by decide)

/-! ## deleteProject and fetchProjects -/

/-- The `{status, message?, data}` envelope of every API response. -/
structure ApiResponse (α : Type) where
  status : String
  message : Option String
  payload : α

/-- The provider state touched by `deleteProject` / `fetchProjects`:
the `projects` list, the `error` string, the `isLoading` flag and the ids
with a pending promise in `loadingRef.current`. -/
structure ProviderState where
  projects : List Project
  error : Option String
  isLoading : Bool
  pendingIds : List String
deriving DecidableEq

/-- The network outcome of one request: `Except.error m` is a transport
failure whose `Error` carries message `m`; `Except.ok r` is an HTTP
response with body `r` (possibly an application-level failure). -/
def respSuccess {α : Type} (resp : Except String (ApiResponse α)) : Bool :=
  match resp with
  | Except.error _ => false
  | Except.ok r => r.status == "success"

/-- `deleteProject(projectId)`: DELETE the project, throw on transport
failure or `status !== "success"`, and only on success filter the project
out of the local state and drop its pending-promise entry; the `catch`
stores the error message and rethrows, the `finally` resets `isLoading`. -/
def deleteProject (st : ProviderState) (projectId : String)
    (resp : Except String (ApiResponse Unit)) : ProviderState × Except String Bool :=
  let st1 := { st with isLoading := true }
  match resp with
  | Except.error m =>
    let msg := jsOr (some m) "Failed to delete project"
    ({ st1 with error := some msg, isLoading := false }, Except.error m)
  | Except.ok r =>
    if r.status ≠ "success" then
      let msg := jsOr r.message "Failed to delete project"
      ({ st1 with error := some msg, isLoading := false }, Except.error msg)
    else
      ({ st1 with
          projects := st1.projects.filter (fun p => p.id != projectId),
          pendingIds := st1.pendingIds.filter (fun x => x != projectId),
          isLoading := false }, Except.ok true)

/-- Claim C9: `deleteProject` is atomic on error — the projects list is
filtered exactly when the server answered `"success"`, and on any failure
the call throws with the projects list untouched. -/
theorem deleteProject_atomic (st : ProviderState) (projectId : String)
    (resp : Except String (ApiResponse Unit)) :
    (deleteProject st projectId resp).1.projects =
      (if respSuccess resp then st.projects.filter (fun p => p.id != projectId)
       else st.projects) ∧
    (respSuccess resp = false →
      ∃ m, (deleteProject st projectId resp).2 = Except.error m) := by
  cases resp with
  | error m => exact ⟨rfl, fun _ => ⟨m, rfl⟩⟩
  | ok r =>
    by_cases hs : r.status = "success"
    · have hb : (r.status == "success") = true := by simp [hs]
      constructor
      · simp [deleteProject, respSuccess, hs, hb]
      · intro hfalse
        rw [respSuccess] at hfalse
        rw [hb] at hfalse
        exact absurd hfalse (by decide)
    · have hb : (r.status == "success") = false := by simp [hs]
      constructor
      · simp [deleteProject, respSuccess, hs, hb]
      · intro _
        exact ⟨jsOr r.message "Failed to delete project", by simp [deleteProject, hs]⟩

def sampleProviderState : ProviderState :=
  { projects := [sampleProject], error := none, isLoading := false, pendingIds := [] }

/-- Claim C9 witness: an application-level failure (`status: "error"`)
leaves `sampleProviderState.projects` untouched and throws. -/
theorem deleteProject_atomic_witness :
    (deleteProject sampleProviderState "p1"
      (Except.ok { status := "error", message := some "boom", payload := () })).1.projects =
      sampleProviderState.projects ∧
    ∃ m, (deleteProject sampleProviderState "p1"
      (Except.ok { status := "error", message := some "boom", payload := () })).2 =
        Except.error m :=
  ⟨(deleteProject_atomic sampleProviderState "p1"
      (Except.ok { status := "error", message := some "boom", payload := () })).1,
   (deleteProject_atomic sampleProviderState "p1"
      (Except.ok { status := "error", message := some "boom", payload := () })).2 rfl⟩

/-- `if (!token) return [];` — a missing or empty stored token is falsy. -/
def tokenPresent : Option String → Bool
  | none => false
  | some t => !(t == "")

/-- `fetchProjects()`: skip everything when no token is stored; otherwise
fetch, throw on transport or application failure (storing the message),
and on success replace the whole projects list.  The third component
records whether a network request was issued. -/
def fetchProjects (st : ProviderState) (token : Option String)
    (resp : Except String (ApiResponse (List Project))) :
    ProviderState × Except String (List Project) × Bool :=
  if tokenPresent token then
    let st1 := { st with isLoading := true }
    match resp with
    | Except.error m =>
      ({ st1 with error := some m, isLoading := false }, Except.error m, true)
    | Except.ok r =>
      if r.status ≠ "success" then
        let msg := jsOr r.message "Failed to fetch projects"
        ({ st1 with error := some msg, isLoading := false }, Except.error msg, true)
      else
        ({ st1 with projects := r.payload, isLoading := false }, Except.ok r.payload, true)
  else
    (st, Except.ok [], false)

/-- Claim C10: with no stored token, `fetchProjects` returns the empty
list, issues no network fetch and leaves the whole provider state — in
particular `projects` and `error` — untouched. -/
theorem fetchProjects_no_token (st : ProviderState) (token : Option String)
    (resp : Except String (ApiResponse (List Project)))
    (h : tokenPresent token = false) :
    fetchProjects st token resp = (st, Except.ok [], false) := by
  simp [fetchProjects, h]

/-- Claim C10 witness: no token stored, a success response waiting on the
wire — nothing happens. -/
theorem fetchProjects_no_token_witness :
    fetchProjects sampleProviderState none
      (Except.ok { status := "success", message := none, payload := [] }) =
      (sampleProviderState, Except.ok [], false) :=
  fetchProjects_no_token sampleProviderState none
    (Except.ok { status := "success", message := none, payload := [] }) rfl

end Tekton
